import Mathlib

/-!
Shallow embedding of the hifi-tutorial entity scripts.

Each namespace below embeds one script (or one family of near-identical
scripts) from the repository.  Engine callbacks become Lean functions from
the state the script reads to the state it writes together with the list of
host-engine calls (effects) it issues.  JavaScript strings are Lean strings,
JS numbers that only ever hold integers are Nat, and decimal literals that
are merely stored and passed through are exact rationals.
-/

namespace HifiTutorial

/-- JS substring test: the embedding of `s.indexOf(sub) !== -1`. -/
def containsSub (s sub : String) : Bool := decide (sub.data <:+: s.data)

/-! ## movementToggle.js (texmeta variant, src/src/assets/scripts/movementToggle.js)

State: module-level vars canChange, isActive, the MyAvatar flag the script
writes, the sign texture applied by switchSignTexture, and the delays of the
timers the script has scheduled with Script.setTimeout. -/

namespace MovementToggle

def ENABLED_TEXTURE : String := "../textures/advmove_Trigger_Off.texmeta.json"

def DISABLED_TEXTURE : String := "../textures/advmove_Trigger_On.texmeta.json"

def TIMEOUT : Nat := 1000

structure St where
  canChange : Bool
  isActive : Bool
  useAdvancedMovementControls : Bool
  texture : String
  pending : List Nat
deriving DecidableEq

def switchSignTexture (s : St) (enabled : Bool) : St :=
  { s with texture := if enabled then ENABLED_TEXTURE else DISABLED_TEXTURE }

def switchControlMechanics (s : St) : St :=
  let s1 : St := { s with isActive := !s.isActive }
  let s2 : St := { s1 with useAdvancedMovementControls := s1.isActive }
  switchSignTexture s2 s2.isActive

def mousePressOnEntity (s : St) : St :=
  if s.canChange then
    let s1 : St := { s with canChange := false }
    let s2 : St := switchControlMechanics s1
    { s2 with pending := s2.pending ++ [TIMEOUT] }
  else s

/-- The host fires the earliest scheduled timeout; its callback sets canChange. -/
def fireTimer (s : St) : St :=
  { s with canChange := true, pending := s.pending.drop 1 }

end MovementToggle

/-! ## movementToggle.js (Menu/Settings variant, src/unnamed/part_002)

Identical debounce structure; the controlled flag is mirrored into the
Menu checkbox instead of MyAvatar.useAdvancedMovementControls. -/

namespace MenuMovementToggle

def ENABLED_TEXTURE : String := "../textures/advmove_Trigger_Off.png"

def DISABLED_TEXTURE : String := "../textures/advmove_Trigger_On.png"

def TIMEOUT : Nat := 1000

structure St where
  canChange : Bool
  isActive : Bool
  menuOptionChecked : Bool
  texture : String
  pending : List Nat
deriving DecidableEq

def switchSignTexture (s : St) (enabled : Bool) : St :=
  { s with texture := if enabled then ENABLED_TEXTURE else DISABLED_TEXTURE }

def switchControlMechanics (s : St) : St :=
  let s1 : St := { s with isActive := !s.isActive }
  let s2 : St := { s1 with menuOptionChecked := s1.isActive }
  switchSignTexture s2 s2.isActive

def mousePressOnEntity (s : St) : St :=
  if s.canChange then
    let s1 : St := { s with canChange := false }
    let s2 : St := switchControlMechanics s1
    { s2 with pending := s2.pending ++ [TIMEOUT] }
  else s

def fireTimer (s : St) : St :=
  { s with canChange := true, pending := s.pending.drop 1 }

end MenuMovementToggle

/-! ## muteToggle.js (second file of src/unnamed/part_003) -/

namespace MuteToggle

def TIMEOUT : Nat := 1000

structure St where
  canChange : Bool
  muted : Bool
  pending : List Nat
deriving DecidableEq

def mousePressOnEntity (s : St) : St :=
  if s.canChange then
    { s with canChange := false, muted := !s.muted, pending := s.pending ++ [TIMEOUT] }
  else s

def fireTimer (s : St) : St :=
  { s with canChange := true, pending := s.pending.drop 1 }

end MuteToggle

/-! ## teleport portal (src/unnamed/part_000)

enterEntity re-reads userData and conditionally assigns Window.location;
the result is the new Window.location, or none when it is left unchanged. -/

namespace Portal

def enterEntity (userData : String) : Option String :=
  if userData.length > 0 then
    if userData.data.head? = some '/' then some userData
    else some ("hifi://" ++ userData)
  else none

end Portal

/-! ## entryPortal.js (src/assets/tutorial/entryPortal.js)

The playSound helper plays the cached teleport sound unconditionally; the
downloaded flag of the sound is never consulted, so the functions below take
it as an argument that the code ignores. -/

namespace EntryPortal

inductive Eff where
  | callEntityMethod (entityId method : String)
  | goToEntry
  | playSound (soundUrl : String)
deriving DecidableEq

def TELEPORT_SOUND_URL : String := "atp:/sounds/teleport.raw"

def playSound (_downloaded : Bool) : List Eff :=
  [Eff.playSound TELEPORT_SOUND_URL]

def enterEntity : List Eff :=
  [Eff.callEntityMethod "\x7bf482faa7-2918-4d83-8b68-e5ea60cc4af5\x7d" "onEnteredEntryPortal",
   Eff.goToEntry]

def leaveEntity (downloaded : Bool) : List Eff :=
  playSound downloaded

end EntryPortal

/-! ## replaceAvatar.js (src/src/assets/scripts/replaceAvatar.js) -/

namespace ReplaceAvatar

inductive Eff where
  | useFullAvatarURL (url : String)
  | playSound (soundUrl : String) (volume : ℚ)
deriving DecidableEq

def VOLUME : ℚ := 0.25

def chimeURL : String := "../sounds/confirmationChime.wav"

def replaceAvatar (chimeDownloaded : Bool) (modelURL : String) : List Eff :=
  [Eff.useFullAvatarURL modelURL] ++
    (if chimeDownloaded then [Eff.playSound chimeURL VOLUME] else [])

def replaceAvatarByMouse (chimeDownloaded : Bool) (modelURL : String)
    (isLeftButton : Bool) : List Eff :=
  if isLeftButton then replaceAvatar chimeDownloaded modelURL else []

end ReplaceAvatar

/-! ## Zone-item scripts

Four near-identical scripts: zoneItemMarket.js, zoneItemMovement.js
(first file of src/unnamed/part_003), zoneItemBubble.js (src/unnamed/part_004)
and zoneItemPlaces.js (src/unnamed/part_005).  The classification of nearby
entities, setDisplayType and hideAllElements are textually identical across
the four files except for (a) the per-file GIF URL constants, modelled as a
GifUrls argument, (b) zoneItemMovement passing its overlay properties as the
sole argument of Overlays.addOverlay in the desktop-with-gamepad branch where
the three other files pass the type string "web3d" first, modelled by the
OverlayCall shape, and (c) zoneItemBubble calling Overlays.deleteEntity where
the three other files call Overlays.deleteOverlay. -/

namespace ZoneItem

def DESKTOP_IDENTIFIER : String := "-Desktop"

def GAMEPAD_IDENTIFIER : String := "-Gamepad"

def VIVE_IDENTIFIER : String := "-Vive"

def RIFT_IDENTIFIER : String := "-Rift"

structure Lists where
  desktopEntities : List Nat
  gamePadEntities : List Nat
  viveEntities : List Nat
  riftEntities : List Nat
deriving DecidableEq

def emptyLists : Lists := ⟨[], [], [], []⟩

/-- The body of the forEach loop in enterEntity: the if/else chain pushing a
found entity onto the first list whose identifier occurs in its name. -/
def processNearbyEntity (ls : Lists) (element : Nat) (elementName : String) : Lists :=
  if containsSub elementName DESKTOP_IDENTIFIER then
    { ls with desktopEntities := ls.desktopEntities ++ [element] }
  else if containsSub elementName GAMEPAD_IDENTIFIER then
    { ls with gamePadEntities := ls.gamePadEntities ++ [element] }
  else if containsSub elementName VIVE_IDENTIFIER then
    { ls with viveEntities := ls.viveEntities ++ [element] }
  else if containsSub elementName RIFT_IDENTIFIER then
    { ls with riftEntities := ls.riftEntities ++ [element] }
  else ls

/-- The classification pass of enterEntity over the entities returned by
Entities.findEntities(position, 10), each paired with its queried name. -/
def classifyNearby (nearbyEntities : List (Nat × String)) : Lists :=
  nearbyEntities.foldl (fun ls e => processNearbyEntity ls e.1 e.2) emptyLists

inductive DeviceClass where
  | desktop
  | gamepad
  | vive
  | rift
deriving DecidableEq

def classList (ls : Lists) : DeviceClass → List Nat
  | DeviceClass.desktop => ls.desktopEntities
  | DeviceClass.gamepad => ls.gamePadEntities
  | DeviceClass.vive => ls.viveEntities
  | DeviceClass.rift => ls.riftEntities

def identifierOrder : List (String × DeviceClass) :=
  [(DESKTOP_IDENTIFIER, DeviceClass.desktop), (GAMEPAD_IDENTIFIER, DeviceClass.gamepad),
   (VIVE_IDENTIFIER, DeviceClass.vive), (RIFT_IDENTIFIER, DeviceClass.rift)]

/-- Spec-side reformulation for the claim: the device class of the first
identifier, in the fixed test order, contained in the entity name. -/
def firstIdentifierClass (name : String) : Option DeviceClass :=
  (identifierOrder.find? (fun p => containsSub name p.1)).map Prod.snd

structure GifUrls where
  desktopUrl : String
  viveUrl : String
  riftUrl : String
  gamepadUrl : String
deriving DecidableEq

/-- Shape of the Overlays.addOverlay call that creates the web GIF overlay:
typed is addOverlay("web3d", props) with props.url set to the given URL;
untyped is the single-argument addOverlay(props) call of zoneItemMovement,
whose sole argument carries the given URL in its url field. -/
inductive OverlayCall where
  | typed (ty : String) (url : String)
  | untyped (url : String)
deriving DecidableEq

def OverlayCall.url : OverlayCall → String
  | OverlayCall.typed _ u => u
  | OverlayCall.untyped u => u

structure ShowResult where
  shown : List Nat
  call : OverlayCall
deriving DecidableEq

/-- showPanelsForDesktop as in zoneItemMarket, zoneItemBubble, zoneItemPlaces. -/
def showPanelsForDesktop (urls : GifUrls) (gamepadPresent : Bool) (ls : Lists) : ShowResult :=
  if gamepadPresent then
    ⟨ls.desktopEntities ++ ls.gamePadEntities, OverlayCall.typed "web3d" urls.gamepadUrl⟩
  else
    ⟨ls.desktopEntities, OverlayCall.typed "web3d" urls.desktopUrl⟩

/-- showPanelsForDesktop of zoneItemMovement: in the gamepad branch the call
is Overlays.addOverlay(WEB_OVERLAY_BASE_PROPERTIES) with no type argument;
url was assigned on that (aliased) properties object just before. -/
def movementShowPanelsForDesktop (urls : GifUrls) (gamepadPresent : Bool) (ls : Lists) : ShowResult :=
  if gamepadPresent then
    ⟨ls.desktopEntities ++ ls.gamePadEntities, OverlayCall.untyped urls.gamepadUrl⟩
  else
    ⟨ls.desktopEntities, OverlayCall.typed "web3d" urls.desktopUrl⟩

/-- showPanelsForVR, identical in all four files. -/
def showPanelsForVR (urls : GifUrls) (gamepadPresent : Bool) (ls : Lists)
    (deviceType : String) : ShowResult :=
  match deviceType with
  | "Rift" =>
    if gamepadPresent then ⟨ls.gamePadEntities, OverlayCall.typed "web3d" urls.gamepadUrl⟩
    else ⟨ls.riftEntities, OverlayCall.typed "web3d" urls.riftUrl⟩
  | _ => ⟨ls.viveEntities, OverlayCall.typed "web3d" urls.viveUrl⟩

def setDisplayType (urls : GifUrls) (hmdActive riftAvailable gamepadPresent : Bool)
    (ls : Lists) : ShowResult :=
  if !hmdActive then showPanelsForDesktop urls gamepadPresent ls
  else showPanelsForVR urls gamepadPresent ls (if riftAvailable then "Rift" else "Vive")

def movementSetDisplayType (urls : GifUrls) (hmdActive riftAvailable gamepadPresent : Bool)
    (ls : Lists) : ShowResult :=
  if !hmdActive then movementShowPanelsForDesktop urls gamepadPresent ls
  else showPanelsForVR urls gamepadPresent ls (if riftAvailable then "Rift" else "Vive")

inductive HideEff where
  | editVisible (entity : Nat) (visible : Bool)
  | deleteOverlayCall (handle : String)
  | deleteEntityCall (handle : String)
  | stopInjector
deriving DecidableEq

/-- hideAllElements of zoneItemMarket, zoneItemMovement and zoneItemPlaces:
the emitted host calls, in source order, and the reset webGifOverlay handle. -/
def hideAllElements (ls : Lists) (webGifOverlay : String) : List HideEff × String :=
  (ls.desktopEntities.map (fun e => HideEff.editVisible e false) ++
   ls.viveEntities.map (fun e => HideEff.editVisible e false) ++
   ls.gamePadEntities.map (fun e => HideEff.editVisible e false) ++
   ls.riftEntities.map (fun e => HideEff.editVisible e false) ++
   [HideEff.deleteOverlayCall webGifOverlay], "")

/-- hideAllElements of zoneItemBubble: identical except the final call is
Overlays.deleteEntity(webGifOverlay) instead of Overlays.deleteOverlay. -/
def bubbleHideAllElements (ls : Lists) (webGifOverlay : String) : List HideEff × String :=
  (ls.desktopEntities.map (fun e => HideEff.editVisible e false) ++
   ls.viveEntities.map (fun e => HideEff.editVisible e false) ++
   ls.gamePadEntities.map (fun e => HideEff.editVisible e false) ++
   ls.riftEntities.map (fun e => HideEff.editVisible e false) ++
   [HideEff.deleteEntityCall webGifOverlay], "")

/-- leaveEntity: hideAllElements, then stop the injector when audioPlaying is
truthy. -/
def leaveEntity (ls : Lists) (webGifOverlay : String) (audioPlaying : Bool) :
    List HideEff × String :=
  ((hideAllElements ls webGifOverlay).1 ++ (if audioPlaying then [HideEff.stopInjector] else []),
   (hideAllElements ls webGifOverlay).2)

def bubbleLeaveEntity (ls : Lists) (webGifOverlay : String) (audioPlaying : Bool) :
    List HideEff × String :=
  ((bubbleHideAllElements ls webGifOverlay).1 ++
    (if audioPlaying then [HideEff.stopInjector] else []),
   (bubbleHideAllElements ls webGifOverlay).2)

inductive SoundEff where
  | playSound (url : String) (volume : ℚ)
deriving DecidableEq

/-- The sound tail of zoneItemMarket.enterEntity (position and localOnly
options elided from the effect). -/
def marketEnterEntitySound (downloaded : Bool) : List SoundEff :=
  if downloaded then [SoundEff.playSound "atp:/sounds/AvatarAudio.wav" 0.5] else []

/-- The sound tail of zoneItemMovement.enterEntity. -/
def movementEnterEntitySound (downloaded : Bool) : List SoundEff :=
  if downloaded then [SoundEff.playSound "atp:/sounds/MovementAudio.wav" 1] else []

def BUBBLE_HMD_SOUND_URL : String := "atp:/sounds/BubbleAudio-HMD.wav"

def BUBBLE_DESKTOP_SOUND_URL : String := "atp:/sounds/BubbleAudio-Desktop.wav"

/-- The sound tail of zoneItemBubble.enterEntity. -/
def bubbleEnterEntitySound (hmdActive hmdDownloaded desktopDownloaded : Bool) : List SoundEff :=
  if hmdActive then
    (if hmdDownloaded then [SoundEff.playSound BUBBLE_HMD_SOUND_URL 1] else [])
  else
    (if desktopDownloaded then [SoundEff.playSound BUBBLE_DESKTOP_SOUND_URL 1] else [])

def PLACES_HMD_SOUND_URL : String := "../sounds/PlacesAudio-HMD.wav"

def PLACES_DESKTOP_SOUND_URL : String := "../sounds/PlacesAudio-Desktop.wav"

/-- The sound tail of zoneItemPlaces.enterEntity. -/
def placesEnterEntitySound (hmdActive hmdDownloaded desktopDownloaded : Bool) : List SoundEff :=
  if hmdActive then
    (if hmdDownloaded then [SoundEff.playSound PLACES_HMD_SOUND_URL 0.5] else [])
  else
    (if desktopDownloaded then [SoundEff.playSound PLACES_DESKTOP_SOUND_URL 0.5] else [])

end ZoneItem

/-! ## spawnOrangeCube.js (src/src/assets/scripts/spawnOrangeCube.js) -/

namespace SpawnOrangeCube

def LIFETIME : Nat := 300

def CHECK_INTERVAL : Nat := LIFETIME * 1000

structure Vec3 where
  x : ℚ
  y : ℚ
  z : ℚ
deriving DecidableEq

def SPAWN_POSITION : Vec3 := ⟨1.0047, -10.5956, 16.8437⟩

structure CubeProperties where
  type : String
  shape : String
  collisionsWillMove : Bool
  colorRed : Nat
  colorGreen : Nat
  colorBlue : Nat
  dimensions : Vec3
  gravity : Vec3
  lifetime : Nat
  position : Vec3
  dynamic : Bool
  userData : String
deriving DecidableEq

def cubeProperties : CubeProperties :=
  { type := "Box"
    shape := "Cube"
    collisionsWillMove := true
    colorRed := 255
    colorGreen := 128
    colorBlue := 0
    dimensions := ⟨0.3092, 0.3092, 0.3092⟩
    gravity := ⟨0, -4, 0⟩
    lifetime := LIFETIME
    position := SPAWN_POSITION
    dynamic := true
    userData := "\x7b\"grabbableKey\":\x7b\"grabbable\":true\x7d\x7d" }

/-- Script state: whether the spawnCubeInterval is registered with the host,
and the entities added so far via Entities.addEntity. -/
structure St where
  intervalActive : Bool
  added : List CubeProperties
deriving DecidableEq

inductive Ev where
  | preload
  | intervalFire
  | unload
deriving DecidableEq

def step (s : St) (e : Ev) : St :=
  match e with
  | Ev.preload => { s with intervalActive := true }
  | Ev.intervalFire =>
    if s.intervalActive then { s with added := s.added ++ [cubeProperties] } else s
  | Ev.unload => { s with intervalActive := false }

def run (s : St) (evs : List Ev) : St := evs.foldl step s

end SpawnOrangeCube

/-! ## utils.js (src/assets/tutorial/utils.js)

The host is abstracted by two parameters: host, mapping the radius of the
Entities.findEntities query at the origin to the list of found entity ids,
and getProp, the queried property values of an entity (none models a JS
undefined result for that key).  Property values are modelled as strings. -/

namespace Utils

/-- JS loose equality between two possibly-undefined string values, as in the
default filterFn comparison value == properties[key]. -/
def jsEq : Option String → Option String → Bool
  | none, none => true
  | some a, some b => a == b
  | _, _ => false

/-- The filterFn default installed when the argument is omitted. -/
def defaultFilterFn (properties : List (String × String)) (key : String)
    (value : Option String) : Bool :=
  jsEq value (properties.lookup key)

/-- The inner for-in loop over the keys of properties with its early break:
the candidate matches when filterFn accepts every key. -/
def matchesAll (filterFn : List (String × String) → String → Option String → Bool)
    (properties : List (String × String)) (candidate : String → Option String) : Bool :=
  properties.all (fun kv => filterFn properties kv.1 (candidate kv.1))

/-- Utils.findEntities.  searchRadius is a JS number argument: none models
undefined, and 0 is the other falsy value a Nat can take. -/
def findEntities (properties : List (String × String)) (searchRadius : Option Nat)
    (filterFn : Option (List (String × String) → String → Option String → Bool))
    (host : Nat → List Nat) (getProp : Nat → String → Option String) : List Nat :=
  let f := filterFn.getD defaultFilterFn
  let radius : Nat :=
    match searchRadius with
    | none => 100000
    | some r => if r = 0 then 100000 else r
  (host radius).filter (fun e => matchesAll f properties (getProp e))

/-- Utils.findEntity.  The bare findEntities identifier in its body denotes
the repository global findEntities, whose body is the one utils.js also
carries as Utils.findEntities, embedded above. -/
def findEntity (properties : List (String × String)) (searchRadius : Option Nat)
    (filterFn : Option (List (String × String) → String → Option String → Bool))
    (host : Nat → List Nat) (getProp : Nat → String → Option String) : Option Nat :=
  let entities := findEntities properties searchRadius filterFn host getProp
  if entities.length > 0 then entities.head? else none

end Utils

/-! ## viveHandsv2.js ControllerDisplayManager (src/unnamed/part_001)

The two controller display objects created by controllerDisplay.js are
opaque here except for the annotations table that handleMessages reads; a
null reference is none.  Handlers return the list of host calls they issue;
message payloads are already-parsed JSON values. -/

namespace ControllerDisplay

structure Controller where
  annots : List (String × List Nat)
deriving DecidableEq

inductive JVal where
  | undef
  | null
  | jbool (b : Bool)
  | jnum (n : Int)
  | jstr (s : String)
  | jarr (elems : List JVal)
  | jobj (fields : List (String × JVal))

/-- Property lookup data.k on a parsed JSON value; undefined when absent or
when the value is not an object. -/
def getField (v : JVal) (k : String) : JVal :=
  match v with
  | JVal.jobj fields => (fields.lookup k).getD JVal.undef
  | _ => JVal.undef

/-- The string JS coerces a value to when it is used as a property key of
the in-operator (array element joining elided; unused by the claims). -/
def jsPropKey (v : JVal) : String :=
  match v with
  | JVal.undef => "undefined"
  | JVal.null => "null"
  | JVal.jbool b => cond b "true" "false"
  | JVal.jnum n => toString n
  | JVal.jstr s => s
  | JVal.jarr _ => ""
  | JVal.jobj _ => "[object Object]"

/-- The key/value pairs a JS for-in loop visits on a parsed JSON value
(string and array index keys elided; unused by the claims). -/
def jobjFields (v : JVal) : List (String × JVal) :=
  match v with
  | JVal.jobj fields => fields
  | _ => []

inductive Side where
  | left
  | right

inductive MsgEff where
  | editOverlay (overlayId : Nat) (visible : JVal)
  | setPartVisible (side : Side) (part : String) (visible : JVal)
  | setLayerForPart (side : Side) (part : String) (layer : JVal)

/-- The Controller-Display branch body for one controller: when name is a key
of its annotations, edit every overlay of that entry. -/
def annotEffects (c : Controller) (name : String) (visible : JVal) : List MsgEff :=
  match c.annots.lookup name with
  | some ids => ids.map (fun i => MsgEff.editOverlay i visible)
  | none => []

def partsEffects (cl cr : Option Controller) (data : JVal) : List MsgEff :=
  (jobjFields data).flatMap (fun kv =>
    (if cl.isSome then [MsgEff.setPartVisible Side.left kv.1 kv.2] else []) ++
    (if cr.isSome then [MsgEff.setPartVisible Side.right kv.1 kv.2] else []))

def layerEffects (cl cr : Option Controller) (data : JVal) : List MsgEff :=
  (jobjFields data).flatMap (fun kv =>
    (if cl.isSome then [MsgEff.setLayerForPart Side.left kv.1 kv.2] else []) ++
    (if cr.isSome then [MsgEff.setLayerForPart Side.right kv.1 kv.2] else []))

/-- handleMessages.  The Hifi-Object-Manipulation branch of the source starts
with a bare return statement, so the code following it is unreachable and the
branch issues no call. -/
def handleMessages (controllerLeft controllerRight : Option Controller)
    (channel : String) (message : JVal) (sender sessionUUID : String) : List MsgEff :=
  if controllerLeft.isNone && controllerRight.isNone then []
  else if sender = sessionUUID then
    if channel = "Controller-Display" then
      let name := jsPropKey (getField message "name")
      let visible := getField message "visible"
      (match controllerLeft with
       | some cl => annotEffects cl name visible
       | none => []) ++
      (match controllerRight with
       | some cr => annotEffects cr name visible
       | none => [])
    else if channel = "Controller-Display-Parts" then
      partsEffects controllerLeft controllerRight message
    else if channel = "Controller-Set-Part-Layer" then
      layerEffects controllerLeft controllerRight message
    else if channel = "Hifi-Object-Manipulation" then
      []
    else []
  else []

structure Msg where
  channel : String
  message : JVal
  sender : String

/-- A run of the connected handler over a list of received messages, with the
controller references fixed: the concatenation of the issued host calls. -/
def runMessages (controllerLeft controllerRight : Option Controller)
    (sessionUUID : String) (msgs : List Msg) : List MsgEff :=
  msgs.flatMap (fun m => handleMessages controllerLeft controllerRight m.channel m.message
    m.sender sessionUUID)

inductive VisEff where
  | debugPrint
  | jsonStringifyCall
  | setVisibleCall (visible : Bool)
deriving DecidableEq

/-- The only JS error reachable in the two setter functions: Object.keys
applied to a null reference throws a TypeError. -/
inductive JsErr where
  | typeErrorNullKeys
deriving DecidableEq

/-- setLeftVisible: one debug print, then the null check guarding the
setVisible call. -/
def setLeftVisible (controllerLeft : Option Controller) (visible : Bool) :
    List VisEff × Option JsErr :=
  ([VisEff.debugPrint] ++
    (if controllerLeft.isSome then [VisEff.debugPrint, VisEff.setVisibleCall visible] else []),
   none)

/-- setRightVisible: the debug logging before the null check stringifies the
reference (JSON.stringify(null) is fine) and then reads Object.keys of it,
which throws when the reference is null, before the check is reached. -/
def setRightVisible (controllerRight : Option Controller) (visible : Bool) :
    List VisEff × Option JsErr :=
  match controllerRight with
  | none => ([VisEff.debugPrint, VisEff.jsonStringifyCall, VisEff.debugPrint],
             some JsErr.typeErrorNullKeys)
  | some _ => ([VisEff.debugPrint, VisEff.jsonStringifyCall, VisEff.debugPrint,
                VisEff.debugPrint, VisEff.debugPrint, VisEff.setVisibleCall visible],
               none)

end ControllerDisplay

/-! ## Theorems -/

/-- Helper: one classification step appends the entity to exactly the list of
the first matching identifier. -/
theorem ZoneItem.classList_processNearbyEntity (ls : ZoneItem.Lists) (id : Nat) (name : String)
    (c : ZoneItem.DeviceClass) :
    ZoneItem.classList (ZoneItem.processNearbyEntity ls id name) c =
      ZoneItem.classList ls c ++
        (if ZoneItem.firstIdentifierClass name = some c then [id] else []) := by
  unfold ZoneItem.processNearbyEntity ZoneItem.firstIdentifierClass ZoneItem.identifierOrder
  cases h1 : containsSub name ZoneItem.DESKTOP_IDENTIFIER <;>
    cases h2 : containsSub name ZoneItem.GAMEPAD_IDENTIFIER <;>
      cases h3 : containsSub name ZoneItem.VIVE_IDENTIFIER <;>
        cases h4 : containsSub name ZoneItem.RIFT_IDENTIFIER <;>
          cases c <;>
            simp [ZoneItem.classList, List.find?, h1, h2, h3, h4]

/-- Helper: the classification fold, from any accumulator. -/
theorem ZoneItem.classList_classify_fold (entities : List (Nat × String)) (ls : ZoneItem.Lists)
    (c : ZoneItem.DeviceClass) :
    ZoneItem.classList
        (entities.foldl (fun a e => ZoneItem.processNearbyEntity a e.1 e.2) ls) c =
      ZoneItem.classList ls c ++
        (entities.filter (fun e => decide (ZoneItem.firstIdentifierClass e.2 = some c))).map
          Prod.fst := by
  induction entities generalizing ls with
  | nil => simp
  | cons e rest ih =>
    rw [List.foldl_cons, ih, ZoneItem.classList_processNearbyEntity]
    by_cases h : ZoneItem.firstIdentifierClass e.2 = some c
    · simp [h, List.filter_cons]
    · simp [h, List.filter_cons]

/-- C1: in the movement-toggle scripts (both variants) and the mute-toggle
script, a mousePressOnEntity with canChange true inverts the controlled
boolean exactly once, mirrors it into the host-side flag, clears canChange
and schedules one TIMEOUT-millisecond timer whose callback restores
canChange, with TIMEOUT = 1000; with canChange false the event leaves the
whole state unchanged, so a second press inside the debounce window never
toggles again. -/
theorem C1_debounce_toggle :
    (∀ s : MovementToggle.St, s.canChange = true →
      MovementToggle.mousePressOnEntity s =
        { canChange := false, isActive := !s.isActive,
          useAdvancedMovementControls := !s.isActive,
          texture := if !s.isActive then MovementToggle.ENABLED_TEXTURE
            else MovementToggle.DISABLED_TEXTURE,
          pending := s.pending ++ [MovementToggle.TIMEOUT] }) ∧
    (∀ s : MovementToggle.St, s.canChange = false →
      MovementToggle.mousePressOnEntity s = s) ∧
    (∀ s : MovementToggle.St,
      MovementToggle.mousePressOnEntity (MovementToggle.mousePressOnEntity s) =
        MovementToggle.mousePressOnEntity s) ∧
    (∀ s : MovementToggle.St, (MovementToggle.fireTimer s).canChange = true) ∧
    MovementToggle.TIMEOUT = 1000 ∧
    (∀ s : MuteToggle.St, s.canChange = true →
      MuteToggle.mousePressOnEntity s =
        { canChange := false, muted := !s.muted,
          pending := s.pending ++ [MuteToggle.TIMEOUT] }) ∧
    (∀ s : MuteToggle.St, s.canChange = false → MuteToggle.mousePressOnEntity s = s) ∧
    (∀ s : MuteToggle.St,
      MuteToggle.mousePressOnEntity (MuteToggle.mousePressOnEntity s) =
        MuteToggle.mousePressOnEntity s) ∧
    (∀ s : MuteToggle.St, (MuteToggle.fireTimer s).canChange = true) ∧
    MuteToggle.TIMEOUT = 1000 ∧
    (∀ s : MenuMovementToggle.St, s.canChange = true →
      MenuMovementToggle.mousePressOnEntity s =
        { canChange := false, isActive := !s.isActive, menuOptionChecked := !s.isActive,
          texture := if !s.isActive then MenuMovementToggle.ENABLED_TEXTURE
            else MenuMovementToggle.DISABLED_TEXTURE,
          pending := s.pending ++ [MenuMovementToggle.TIMEOUT] }) ∧
    (∀ s : MenuMovementToggle.St, s.canChange = false →
      MenuMovementToggle.mousePressOnEntity s = s) ∧
    MenuMovementToggle.TIMEOUT = 1000 := by
  refine ⟨?_, ?_, ?_, ?_, rfl, ?_, ?_, ?_, ?_, rfl, ?_, ?_, rfl⟩
  · intro s h
    simp [MovementToggle.mousePressOnEntity, MovementToggle.switchControlMechanics,
      MovementToggle.switchSignTexture, h]
  · intro s h
    simp [MovementToggle.mousePressOnEntity, h]
  · intro s
    by_cases h : s.canChange <;>
      simp [MovementToggle.mousePressOnEntity, MovementToggle.switchControlMechanics,
        MovementToggle.switchSignTexture, h]
  · intro s
    simp [MovementToggle.fireTimer]
  · intro s h
    simp [MuteToggle.mousePressOnEntity, h]
  · intro s h
    simp [MuteToggle.mousePressOnEntity, h]
  · intro s
    by_cases h : s.canChange <;> simp [MuteToggle.mousePressOnEntity, h]
  · intro s
    simp [MuteToggle.fireTimer]
  · intro s h
    simp [MenuMovementToggle.mousePressOnEntity, MenuMovementToggle.switchControlMechanics,
      MenuMovementToggle.switchSignTexture, h]
  · intro s h
    simp [MenuMovementToggle.mousePressOnEntity, h]

/-- Witness for C1 at concrete states. -/
theorem C1_debounce_toggle_witness :
    MovementToggle.mousePressOnEntity ⟨true, false, false, "", []⟩ =
      ⟨false, true, true, MovementToggle.ENABLED_TEXTURE, [1000]⟩ ∧
    MuteToggle.mousePressOnEntity ⟨false, true, []⟩ = ⟨false, true, []⟩ := by
  constructor
  · have h := C1_debounce_toggle.1 ⟨true, false, false, "", []⟩ rfl
    simpa using h
  · exact C1_debounce_toggle.2.2.2.2.2.2.1 ⟨false, true, []⟩ rfl

/-- C4: the teleport portal enterEntity leaves Window.location unchanged on an
empty destination, assigns the destination verbatim when its first character
is a slash, and prepends the hifi scheme otherwise. -/
theorem C4_portal_destination (ud : String) :
    (ud.data = [] → Portal.enterEntity ud = none) ∧
    (∀ cs, ud.data = '/' :: cs → Portal.enterEntity ud = some ud) ∧
    (∀ c cs, ud.data = c :: cs → c ≠ '/' →
      Portal.enterEntity ud = some ("hifi://" ++ ud)) := by
  refine ⟨?_, ?_, ?_⟩
  · intro h
    simp [Portal.enterEntity, String.length, h]
  · intro cs h
    simp [Portal.enterEntity, String.length, h]
  · intro c cs h hc
    simp [Portal.enterEntity, String.length, h, hc]

/-- Witness for C4 at three concrete destinations. -/
theorem C4_portal_destination_witness :
    Portal.enterEntity "" = none ∧
    Portal.enterEntity "/sandbox" = some "/sandbox" ∧
    Portal.enterEntity "welcome" = some "hifi://welcome" := by
  refine ⟨(C4_portal_destination "").1 rfl, ?_, ?_⟩
  · exact (C4_portal_destination "/sandbox").2.1 "sandbox".data rfl
  · exact (C4_portal_destination "welcome").2.2 'w' "elcome".data rfl (by decide)

/-- C5: for every zone-item script, the enterEntity classification puts each
found entity exactly in the list of the first identifier its name contains
in the fixed test order Desktop, Gamepad, Vive, Rift, and in no list when
the name contains none of the four identifiers. -/
theorem C5_zone_classification (nearbyEntities : List (Nat × String))
    (c : ZoneItem.DeviceClass) :
    ZoneItem.classList (ZoneItem.classifyNearby nearbyEntities) c =
      (nearbyEntities.filter
        (fun e => decide (ZoneItem.firstIdentifierClass e.2 = some c))).map Prod.fst := by
  unfold ZoneItem.classifyNearby
  rw [ZoneItem.classList_classify_fold]
  cases c <;> simp [ZoneItem.emptyLists, ZoneItem.classList]

/-- C6: setDisplayType in all four zone-item scripts: desktop panels out of
HMD (gamepad entities and the gamepad GIF URL added when a gamepad is
present, otherwise the desktop GIF URL), and in HMD the Rift branch exactly
when the Rift is available (gamepad entities preferred when present),
otherwise the Vive panels.  The zoneItemMovement variant differs only in the
shape of its desktop-with-gamepad overlay call. -/
theorem C6_set_display_type (urls : ZoneItem.GifUrls) (ls : ZoneItem.Lists)
    (riftAvailable : Bool) :
    (ZoneItem.setDisplayType urls false riftAvailable true ls =
      ⟨ls.desktopEntities ++ ls.gamePadEntities,
        ZoneItem.OverlayCall.typed "web3d" urls.gamepadUrl⟩) ∧
    (ZoneItem.setDisplayType urls false riftAvailable false ls =
      ⟨ls.desktopEntities, ZoneItem.OverlayCall.typed "web3d" urls.desktopUrl⟩) ∧
    (ZoneItem.setDisplayType urls true true true ls =
      ⟨ls.gamePadEntities, ZoneItem.OverlayCall.typed "web3d" urls.gamepadUrl⟩) ∧
    (ZoneItem.setDisplayType urls true true false ls =
      ⟨ls.riftEntities, ZoneItem.OverlayCall.typed "web3d" urls.riftUrl⟩) ∧
    (∀ gamepadPresent : Bool, ZoneItem.setDisplayType urls true false gamepadPresent ls =
      ⟨ls.viveEntities, ZoneItem.OverlayCall.typed "web3d" urls.viveUrl⟩) ∧
    (ZoneItem.movementSetDisplayType urls false riftAvailable true ls =
      ⟨ls.desktopEntities ++ ls.gamePadEntities,
        ZoneItem.OverlayCall.untyped urls.gamepadUrl⟩) ∧
    (ZoneItem.movementSetDisplayType urls false riftAvailable false ls =
      ⟨ls.desktopEntities, ZoneItem.OverlayCall.typed "web3d" urls.desktopUrl⟩) ∧
    (ZoneItem.movementSetDisplayType urls true true true ls =
      ⟨ls.gamePadEntities, ZoneItem.OverlayCall.typed "web3d" urls.gamepadUrl⟩) ∧
    (ZoneItem.movementSetDisplayType urls true true false ls =
      ⟨ls.riftEntities, ZoneItem.OverlayCall.typed "web3d" urls.riftUrl⟩) ∧
    (∀ gamepadPresent : Bool,
      ZoneItem.movementSetDisplayType urls true false gamepadPresent ls =
        ⟨ls.viveEntities, ZoneItem.OverlayCall.typed "web3d" urls.viveUrl⟩) := by
  refine ⟨rfl, rfl, rfl, rfl, fun _ => rfl, rfl, rfl, rfl, rfl, fun _ => rfl⟩

/-- C7: evaluation of the zone-item teardown.  zoneItemBubble.leaveEntity at a
concrete shown state hides all four device-class entities, resets the
overlay handle and stops the injector, but its overlay teardown is an
Overlays.deleteEntity call and never the Overlays.deleteOverlay deletion
call that the three sibling zone scripts issue. -/
theorem C7_bubble_delete_entity :
    (ZoneItem.bubbleLeaveEntity ⟨[1], [2], [3], [4]⟩ "overlay-7" true =
      ([ZoneItem.HideEff.editVisible 1 false, ZoneItem.HideEff.editVisible 3 false,
        ZoneItem.HideEff.editVisible 2 false, ZoneItem.HideEff.editVisible 4 false,
        ZoneItem.HideEff.deleteEntityCall "overlay-7", ZoneItem.HideEff.stopInjector], "")) ∧
    (ZoneItem.HideEff.deleteOverlayCall "overlay-7" ∉
      (ZoneItem.bubbleLeaveEntity ⟨[1], [2], [3], [4]⟩ "overlay-7" true).1) ∧
    (∀ (ls : ZoneItem.Lists) (h : String) (audio : Bool),
      ZoneItem.HideEff.deleteOverlayCall h ∈ (ZoneItem.leaveEntity ls h audio).1) ∧
    (∀ (ls : ZoneItem.Lists) (h : String) (audio : Bool),
      ZoneItem.HideEff.deleteEntityCall h ∉ (ZoneItem.leaveEntity ls h audio).1) ∧
    (∀ (ls : ZoneItem.Lists) (h : String) (audio : Bool),
      ZoneItem.HideEff.deleteOverlayCall h ∉ (ZoneItem.bubbleLeaveEntity ls h audio).1) := by
  refine ⟨rfl, by decide, ?_, ?_, ?_⟩ <;>
    intro ls h audio <;>
      cases audio <;>
        simp [ZoneItem.leaveEntity, ZoneItem.bubbleLeaveEntity, ZoneItem.hideAllElements,
          ZoneItem.bubbleHideAllElements]

/-- Helper: with the interval inactive, later events that are not a preload
never change the spawner state. -/
theorem SpawnOrangeCube.run_inactive (evs : List SpawnOrangeCube.Ev) :
    ∀ s : SpawnOrangeCube.St, s.intervalActive = false →
      SpawnOrangeCube.Ev.preload ∉ evs → SpawnOrangeCube.run s evs = s := by
  induction evs with
  | nil => intro s _ _; rfl
  | cons e rest ih =>
    intro s hs hev
    have he : e ≠ SpawnOrangeCube.Ev.preload := fun h => hev (h ▸ List.mem_cons_self e rest)
    have hrest : SpawnOrangeCube.Ev.preload ∉ rest := fun h => hev (List.mem_cons_of_mem e h)
    have hstep : SpawnOrangeCube.step s e = s := by
      cases e with
      | preload => exact absurd rfl he
      | intervalFire => simp [SpawnOrangeCube.step, hs]
      | unload =>
        cases s with
        | mk ia ad => cases hs; rfl
    calc SpawnOrangeCube.run s (e :: rest)
        = SpawnOrangeCube.run (SpawnOrangeCube.step s e) rest := rfl
      _ = SpawnOrangeCube.run s rest := by rw [hstep]
      _ = s := ih s hs hrest

/-- C8: the spawner interval period is CHECK_INTERVAL = LIFETIME * 1000 =
300000 milliseconds; each firing while the interval registered by preload is
active adds exactly one entity with the fixed cube properties (lifetime 300
seconds, the fixed spawn position, dynamic, grabbable userData); after
unload, any run of further non-preload events adds no cube. -/
theorem C8_cube_spawner :
    SpawnOrangeCube.CHECK_INTERVAL = 300000 ∧
    SpawnOrangeCube.CHECK_INTERVAL = SpawnOrangeCube.LIFETIME * 1000 ∧
    SpawnOrangeCube.cubeProperties.lifetime = 300 ∧
    SpawnOrangeCube.cubeProperties.position = ⟨1.0047, -10.5956, 16.8437⟩ ∧
    SpawnOrangeCube.cubeProperties.dynamic = true ∧
    SpawnOrangeCube.cubeProperties.userData =
      "\x7b\"grabbableKey\":\x7b\"grabbable\":true\x7d\x7d" ∧
    (∀ s : SpawnOrangeCube.St, s.intervalActive = true →
      SpawnOrangeCube.step s SpawnOrangeCube.Ev.intervalFire =
        { s with added := s.added ++ [SpawnOrangeCube.cubeProperties] }) ∧
    (∀ s : SpawnOrangeCube.St,
      (SpawnOrangeCube.step s SpawnOrangeCube.Ev.preload).intervalActive = true) ∧
    (∀ (s : SpawnOrangeCube.St) (evs : List SpawnOrangeCube.Ev),
      SpawnOrangeCube.Ev.preload ∉ evs →
      SpawnOrangeCube.run (SpawnOrangeCube.step s SpawnOrangeCube.Ev.unload) evs =
        { s with intervalActive := false }) := by
  refine ⟨rfl, rfl, rfl, rfl, rfl, rfl, ?_, ?_, ?_⟩
  · intro s hs
    simp [SpawnOrangeCube.step, hs]
  · intro s
    simp [SpawnOrangeCube.step]
  · intro s evs hev
    exact SpawnOrangeCube.run_inactive evs _ rfl hev

/-- Witness for C8: one firing adds one cube; firings after unload add none. -/
theorem C8_cube_spawner_witness :
    SpawnOrangeCube.step ⟨true, []⟩ SpawnOrangeCube.Ev.intervalFire =
      ⟨true, [SpawnOrangeCube.cubeProperties]⟩ ∧
    SpawnOrangeCube.run (SpawnOrangeCube.step ⟨true, [SpawnOrangeCube.cubeProperties]⟩
        SpawnOrangeCube.Ev.unload)
      [SpawnOrangeCube.Ev.intervalFire, SpawnOrangeCube.Ev.intervalFire] =
      ⟨false, [SpawnOrangeCube.cubeProperties]⟩ := by
  obtain ⟨-, -, -, -, -, -, hfire, -, hrun⟩ := C8_cube_spawner
  constructor
  · simpa using hfire ⟨true, []⟩ rfl
  · simpa using hrun ⟨true, [SpawnOrangeCube.cubeProperties]⟩
      [SpawnOrangeCube.Ev.intervalFire, SpawnOrangeCube.Ev.intervalFire] (by decide)

/-- Helper: with pairwise distinct keys, lookup finds the value paired with a
member key. -/
theorem Utils.lookup_eq_some_of_nodup (l : List (String × String)) (kv : String × String)
    (hnd : (l.map Prod.fst).Nodup) (hm : kv ∈ l) : l.lookup kv.1 = some kv.2 := by
  induction l with
  | nil => cases hm
  | cons a rest ih =>
    obtain ⟨k, v⟩ := a
    rw [List.map_cons, List.nodup_cons] at hnd
    rcases List.mem_cons.mp hm with h | h
    · subst h
      simp [List.lookup]
    · have hmem : kv.1 ∈ rest.map Prod.fst := List.mem_map_of_mem Prod.fst h
      have hne' : k ≠ kv.1 := fun he => hnd.1 (he ▸ hmem)
      have hne : (kv.1 == k) = false := beq_eq_false_iff_ne.mpr fun he => hne' he.symm
      simp [List.lookup, hne, ih hnd.2 h]

/-- Helper: over keys of the nodup-keyed property list, the default filterFn
comparison against properties[key] is the comparison against the paired
value. -/
theorem Utils.all_default_eq (props : List (String × String))
    (hnd : (props.map Prod.fst).Nodup) (cand : String → Option String) :
    ∀ l : List (String × String), (∀ kv ∈ l, kv ∈ props) →
      (l.all fun kv => Utils.jsEq (cand kv.1) (props.lookup kv.1)) =
        (l.all fun kv => Utils.jsEq (cand kv.1) (some kv.2)) := by
  intro l
  induction l with
  | nil => intro _; rfl
  | cons kv rest ih =>
    intro hsub
    have h1 : props.lookup kv.1 = some kv.2 :=
      Utils.lookup_eq_some_of_nodup props kv hnd (hsub kv (List.mem_cons_self kv rest))
    have h2 := ih fun x hx => hsub x (List.mem_cons_of_mem kv hx)
    simp [List.all_cons, h1, h2]

/-- C9: Utils.findEntity is the head of the Utils.findEntities result when
non-empty and null otherwise; with the filter omitted, Utils.findEntities
keeps exactly the found entities all of whose queried property values
loosely compare equal to the given properties; a falsy searchRadius
(undefined or 0) defaults the query radius to 100000, a non-zero radius is
used as given. -/
theorem C9_find_entity (properties : List (String × String))
    (filterFn : Option (List (String × String) → String → Option String → Bool))
    (host : Nat → List Nat) (getProp : Nat → String → Option String) :
    (∀ searchRadius,
      Utils.findEntities properties searchRadius filterFn host getProp = [] →
      Utils.findEntity properties searchRadius filterFn host getProp = none) ∧
    (∀ searchRadius e rest,
      Utils.findEntities properties searchRadius filterFn host getProp = e :: rest →
      Utils.findEntity properties searchRadius filterFn host getProp = some e) ∧
    ((properties.map Prod.fst).Nodup →
      Utils.findEntities properties none none host getProp =
        (host 100000).filter
          (fun e => properties.all fun kv => Utils.jsEq (getProp e kv.1) (some kv.2))) ∧
    ((properties.map Prod.fst).Nodup →
      Utils.findEntities properties (some 0) none host getProp =
        (host 100000).filter
          (fun e => properties.all fun kv => Utils.jsEq (getProp e kv.1) (some kv.2))) ∧
    ((properties.map Prod.fst).Nodup → ∀ n : Nat,
      Utils.findEntities properties (some (n + 1)) none host getProp =
        (host (n + 1)).filter
          (fun e => properties.all fun kv => Utils.jsEq (getProp e kv.1) (some kv.2))) := by
  have hmatch : ∀ hnd : (properties.map Prod.fst).Nodup, ∀ e : Nat,
      Utils.matchesAll Utils.defaultFilterFn properties (getProp e) =
        (properties.all fun kv => Utils.jsEq (getProp e kv.1) (some kv.2)) := by
    intro hnd e
    unfold Utils.matchesAll Utils.defaultFilterFn
    exact Utils.all_default_eq properties hnd (getProp e) properties (fun _ hx => hx)
  refine ⟨?_, ?_, ?_, ?_, ?_⟩
  · intro searchRadius hempty
    simp only [Utils.findEntity, hempty]
    rfl
  · intro searchRadius e rest hcons
    simp only [Utils.findEntity, hcons]
    simp
  · intro hnd
    simp only [Utils.findEntities, Option.getD]
    exact List.filter_congr fun e _ => hmatch hnd e
  · intro hnd
    simp only [Utils.findEntities, Option.getD]
    norm_num
    exact List.filter_congr fun e _ => hmatch hnd e
  · intro hnd n
    simp only [Utils.findEntities, Option.getD]
    norm_num
    exact List.filter_congr fun e _ => hmatch hnd e

/-- Witness for C9: a concrete host with two entities, one matching. -/
theorem C9_find_entity_witness :
    Utils.findEntities [("name", "Panel-Desktop")] none none
        (fun _ => [3, 7])
        (fun e _ => if e = 3 then some "Panel-Desktop" else some "Panel-Vive") = [3] ∧
    Utils.findEntity [("name", "Panel-Desktop")] none none
        (fun _ => [3, 7])
        (fun e _ => if e = 3 then some "Panel-Desktop" else some "Panel-Vive") = some 3 := by
  have h := C9_find_entity [("name", "Panel-Desktop")] none
    (fun _ => [3, 7])
    (fun e _ => if e = 3 then some "Panel-Desktop" else some "Panel-Vive")
  constructor
  · have h3 := h.2.2.1 (by decide)
    simpa using h3
  · refine h.2.1 none 3 [] ?_
    have h3 := h.2.2.1 (by decide)
    simpa using h3

/-- Helper: handleMessages issues nothing for a message from another sender. -/
theorem ControllerDisplay.handleMessages_other_sender
    (cl cr : Option ControllerDisplay.Controller) (ch : String)
    (m : ControllerDisplay.JVal) (s u : String) (h : s ≠ u) :
    ControllerDisplay.handleMessages cl cr ch m s u = [] := by
  unfold ControllerDisplay.handleMessages
  simp [h]

/-- C10: the ControllerDisplayManager message handler issues no host call
unless the sender is the local session UUID and at least one controller
reference is non-null; the Hifi-Object-Manipulation branch returns
immediately and never issues a call; and a run over a message list equals
the run over only the messages from the local session, so runs differing
only in messages from other senders produce identical controller-display
state. -/
theorem C10_message_guards :
    (∀ (cl cr : Option ControllerDisplay.Controller) (ch : String)
        (m : ControllerDisplay.JVal) (s u : String), s ≠ u →
      ControllerDisplay.handleMessages cl cr ch m s u = []) ∧
    (∀ (ch : String) (m : ControllerDisplay.JVal) (s u : String),
      ControllerDisplay.handleMessages none none ch m s u = []) ∧
    (∀ (cl cr : Option ControllerDisplay.Controller) (m : ControllerDisplay.JVal)
        (s u : String),
      ControllerDisplay.handleMessages cl cr "Hifi-Object-Manipulation" m s u = []) ∧
    (∀ (cl cr : Option ControllerDisplay.Controller) (u : String)
        (msgs : List ControllerDisplay.Msg),
      ControllerDisplay.runMessages cl cr u msgs =
        ControllerDisplay.runMessages cl cr u (msgs.filter fun m => m.sender == u)) := by
  refine ⟨fun cl cr ch m s u h => ControllerDisplay.handleMessages_other_sender cl cr ch m s u h,
    ?_, ?_, ?_⟩
  · intro ch m s u
    simp [ControllerDisplay.handleMessages]
  · intro cl cr m s u
    by_cases hsu : s = u
    · subst hsu
      unfold ControllerDisplay.handleMessages
      simp
    · exact ControllerDisplay.handleMessages_other_sender cl cr _ m s u hsu
  · intro cl cr u msgs
    induction msgs with
    | nil => rfl
    | cons m rest ih =>
      simp only [ControllerDisplay.runMessages, List.flatMap_cons, List.filter_cons] at ih ⊢
      by_cases h : m.sender = u
      · simp [h, ih]
      · have hz := ControllerDisplay.handleMessages_other_sender cl cr m.channel m.message
          m.sender u h
        simp [h, hz, ih]

/-- Witness for C10: a message from a different sender issues no call. -/
theorem C10_message_guards_witness :
    ControllerDisplay.handleMessages (some ⟨[("trigger", [5])]⟩) none "Controller-Display"
      (ControllerDisplay.JVal.jobj [("name", ControllerDisplay.JVal.jstr "trigger")])
      "sender-a" "session-b" = [] :=
  C10_message_guards.1 (some ⟨[("trigger", [5])]⟩) none "Controller-Display"
    (ControllerDisplay.JVal.jobj [("name", ControllerDisplay.JVal.jstr "trigger")])
    "sender-a" "session-b" (by decide)

/-- C2 counterexample: the tutorial entry portal plays its teleport sound with
the downloaded flag false, so not every playback is guarded by the flag. -/
theorem C2_unguarded_entry_portal :
    EntryPortal.Eff.playSound EntryPortal.TELEPORT_SOUND_URL ∈ EntryPortal.leaveEntity false := by
  simp [EntryPortal.leaveEntity, EntryPortal.playSound]

/-- C2 amended: every sound playback except the tutorial entry portal is
guarded by the downloaded flag of the sound it plays, with the other handler
effects unconditional; the entry portal plays its teleport sound on every
leaveEntity regardless of the flag. -/
theorem C2_guarded_playback :
    (∀ (chimeDownloaded : Bool) (modelURL : String),
      (ReplaceAvatar.Eff.playSound ReplaceAvatar.chimeURL ReplaceAvatar.VOLUME ∈
          ReplaceAvatar.replaceAvatar chimeDownloaded modelURL ↔ chimeDownloaded = true) ∧
      ReplaceAvatar.Eff.useFullAvatarURL modelURL ∈
        ReplaceAvatar.replaceAvatar chimeDownloaded modelURL) ∧
    (∀ downloaded : Bool,
      ZoneItem.SoundEff.playSound "atp:/sounds/AvatarAudio.wav" 0.5 ∈
          ZoneItem.marketEnterEntitySound downloaded ↔ downloaded = true) ∧
    (∀ downloaded : Bool,
      ZoneItem.SoundEff.playSound "atp:/sounds/MovementAudio.wav" 1 ∈
          ZoneItem.movementEnterEntitySound downloaded ↔ downloaded = true) ∧
    (∀ hmdActive hmdDownloaded desktopDownloaded : Bool,
      (ZoneItem.SoundEff.playSound ZoneItem.BUBBLE_HMD_SOUND_URL 1 ∈
          ZoneItem.bubbleEnterEntitySound hmdActive hmdDownloaded desktopDownloaded ↔
        hmdActive = true ∧ hmdDownloaded = true) ∧
      (ZoneItem.SoundEff.playSound ZoneItem.BUBBLE_DESKTOP_SOUND_URL 1 ∈
          ZoneItem.bubbleEnterEntitySound hmdActive hmdDownloaded desktopDownloaded ↔
        hmdActive = false ∧ desktopDownloaded = true)) ∧
    (∀ hmdActive hmdDownloaded desktopDownloaded : Bool,
      (ZoneItem.SoundEff.playSound ZoneItem.PLACES_HMD_SOUND_URL 0.5 ∈
          ZoneItem.placesEnterEntitySound hmdActive hmdDownloaded desktopDownloaded ↔
        hmdActive = true ∧ hmdDownloaded = true) ∧
      (ZoneItem.SoundEff.playSound ZoneItem.PLACES_DESKTOP_SOUND_URL 0.5 ∈
          ZoneItem.placesEnterEntitySound hmdActive hmdDownloaded desktopDownloaded ↔
        hmdActive = false ∧ desktopDownloaded = true)) ∧
    (∀ downloaded : Bool,
      EntryPortal.Eff.playSound EntryPortal.TELEPORT_SOUND_URL ∈
        EntryPortal.leaveEntity downloaded) := by
  refine ⟨?_, ?_, ?_, ?_, ?_, ?_⟩
  · intro d url
    cases d <;> simp [ReplaceAvatar.replaceAvatar]
  · intro d
    cases d <;> simp [ZoneItem.marketEnterEntitySound]
  · intro d
    cases d <;> simp [ZoneItem.movementEnterEntitySound]
  · intro a b c
    cases a <;> cases b <;> cases c <;>
      refine ⟨?_, ?_⟩ <;>
        simp [ZoneItem.bubbleEnterEntitySound, ZoneItem.BUBBLE_HMD_SOUND_URL,
          ZoneItem.BUBBLE_DESKTOP_SOUND_URL]
  · intro a b c
    cases a <;> cases b <;> cases c <;>
      refine ⟨?_, ?_⟩ <;>
        simp [ZoneItem.placesEnterEntitySound, ZoneItem.PLACES_HMD_SOUND_URL,
          ZoneItem.PLACES_DESKTOP_SOUND_URL]
  · intro d
    simp [EntryPortal.leaveEntity, EntryPortal.playSound]

/-- C3 counterexample: calling setRightVisible with a null controllerRight
reaches the Object.keys read of the null reference in its debug logging
before the null check, so the call dereferences null and throws. -/
theorem C3_set_right_visible_counterexample :
    (ControllerDisplay.setRightVisible none true).2 =
      some ControllerDisplay.JsErr.typeErrorNullKeys := rfl

/-- C3 amended: setLeftVisible with a null reference performs no controller
operation and never dereferences the reference; setRightVisible does guard
its setVisible call with the null check, but its debug logging reads
Object.keys of the reference before the check, so with a null reference it
throws a TypeError and performs no setVisible, while with a non-null
reference setVisible is reached. -/
theorem C3_null_guard (v : Bool) :
    ControllerDisplay.setLeftVisible none v = ([ControllerDisplay.VisEff.debugPrint], none) ∧
    ControllerDisplay.setRightVisible none v =
      ([ControllerDisplay.VisEff.debugPrint, ControllerDisplay.VisEff.jsonStringifyCall,
        ControllerDisplay.VisEff.debugPrint], some ControllerDisplay.JsErr.typeErrorNullKeys) ∧
    (∀ c : ControllerDisplay.Controller,
      ControllerDisplay.VisEff.setVisibleCall v ∈
        (ControllerDisplay.setRightVisible (some c) v).1) := by
  refine ⟨rfl, rfl, ?_⟩
  intro c
  simp [ControllerDisplay.setRightVisible]

end HifiTutorial
